import Mathlib

/-!
Verification development for the pipeline status-synchronization subsystem
(frontend/src/services/websocket.ts, frontend/src/hooks/usePipeline.ts,
frontend/src/components/PipelineProgress.tsx, frontend/src/types/pipeline.ts).

The TypeScript source is shallowly embedded: pure functions become Lean
functions, the stateful WebSocket service becomes explicit state passing,
JavaScript `Map`/`Set` collections become association lists / duplicate-free
lists in insertion order, and side effects (callback invocations, outbound
control frames, console diagnostics) become explicit output lists.
-/

/-! ## Stage model (types/pipeline.ts) -/

/-- The eight pipeline stages, in their fixed declared order
(`enum PipelineStage` in types/pipeline.ts). -/
inductive PipelineStage where
  | websiteScraping
  | icpGeneration
  | conversationCreation
  | promptClassification
  | llmSimulation
  | brandDetection
  | knowledgeGraphBuilding
  | competitiveAnalysis
deriving DecidableEq, Repr

/-- `StageStatus = 'pending' | 'in-progress' | 'completed' | 'error'`. -/
inductive StageStatus where
  | pending
  | inProgress
  | completed
  | error
deriving DecidableEq, Repr

/-- `interface PipelineStageData` from types/pipeline.ts (the `metadata`
bag is omitted: no embedded code reads it). -/
structure PipelineStageData where
  stage : PipelineStage
  status : StageStatus
  progress : Nat
  currentAction : Option String := none
  estimatedTimeRemaining : Option Nat := none
  startedAt : Option String := none
  completedAt : Option String := none
  error : Option String := none
deriving DecidableEq, Repr

/-- `interface PipelineState` from types/pipeline.ts. -/
structure PipelineState where
  id : String
  websiteId : String
  overallProgress : Nat
  stages : List PipelineStageData
  startedAt : String
  estimatedCompletion : Option String := none
deriving DecidableEq, Repr

/-! ## Derived state (PipelineProgress.tsx and usePipeline.ts) -/

/-- `getOverallStatus` from PipelineProgress.tsx: an overall status derived
from the (possibly not-yet-received, i.e. `null`) pipeline state by the
strict precedence chain error, completed, in-progress, pending. -/
def getOverallStatus (pipelineState : Option PipelineState) : StageStatus :=
  match pipelineState with
  | none => StageStatus.pending
  | some ps =>
    if ps.stages.any (fun st => decide (st.status = StageStatus.error)) then
      StageStatus.error
    else if ps.stages.all (fun st => decide (st.status = StageStatus.completed)) then
      StageStatus.completed
    else if ps.stages.any (fun st => decide (st.status = StageStatus.inProgress)) then
      StageStatus.inProgress
    else
      StageStatus.pending

/-- `isComplete` from usePipeline.ts: `pipelineState ? stages.every(status ===
'completed') : false`. -/
def isComplete (pipelineState : Option PipelineState) : Bool :=
  match pipelineState with
  | none => false
  | some ps => ps.stages.all (fun st => decide (st.status = StageStatus.completed))

/-- `hasError` from usePipeline.ts: `pipelineState ? stages.some(status ===
'error') : false`. -/
def hasError (pipelineState : Option PipelineState) : Bool :=
  match pipelineState with
  | none => false
  | some ps => ps.stages.any (fun st => decide (st.status = StageStatus.error))

/-- JavaScript truthiness of an optional string (`if (errorStage?.error)`):
truthy exactly when present and non-empty. -/
def errTruthy : Option String → Bool
  | none => false
  | some s => decide (s ≠ "")

/-- The callback side effects one received `pipeline_update` produces in the
`usePipeline` hook: whether `handleComplete` (hence `onComplete`) fires, and
the error text passed to `handleError` if it fires. -/
structure HookUpdateEvents where
  completeFired : Bool
  errorFired : Option String
deriving DecidableEq, Repr

/-- The body of the update callback registered by `usePipeline`
(usePipeline.ts lines 59–76): fires `handleComplete` when every stage is
`completed`; when some stage is `error`, looks up the FIRST such stage and
fires `handleError` with its error text only if that text is truthy. -/
def usePipelineOnUpdate (state : PipelineState) : HookUpdateEvents :=
  let allCompleted := state.stages.all (fun st => decide (st.status = StageStatus.completed))
  let stageHasError := state.stages.any (fun st => decide (st.status = StageStatus.error))
  let errorFired :=
    if stageHasError then
      match state.stages.find? (fun st => decide (st.status = StageStatus.error)) with
      | some errorStage => if errTruthy errorStage.error then errorStage.error else none
      | none => none
    else none
  { completeFired := allCompleted, errorFired := errorFired }

/-- The hook's `error` state field after processing one update: it is only
ever written by `handleError`, so it changes only when `errorFired` is set. -/
def hookErrorAfterUpdate (errField : Option String) (state : PipelineState) : Option String :=
  match (usePipelineOnUpdate state).errorFired with
  | some e => some e
  | none => errField

/-- Number of `onComplete` invocations produced by a sequence of received
updates for the subscribed pipeline. -/
def countCompleteFires (updates : List PipelineState) : Nat :=
  (updates.filter (fun s => (usePipelineOnUpdate s).completeFired)).length

/-! ## Estimated-completion formatting (PipelineProgress.tsx lines 53–67) -/

/-- `Math.ceil(diffMs / 60000)` on an integral millisecond delta: ceiling
division, expressed through floor (euclidean) division. -/
def ceilMinutes (diffMs : Int) : Int := -((-diffMs) / 60000)

/-- `formatEstimatedCompletion` from PipelineProgress.tsx, as a function of
the millisecond delta `date.getTime() - now.getTime()`. -/
def formatEstimatedCompletion (diffMs : Int) : String :=
  let diffMins := ceilMinutes diffMs
  if diffMins < 1 then "Less than a minute"
  else if diffMins = 1 then "1 minute"
  else if diffMins < 60 then toString diffMins ++ " minutes"
  else
    let hours := diffMins / 60
    let mins := diffMins % 60
    toString hours ++ "h " ++ toString mins ++ "m"

/-! ## Channel lifecycle and backoff (websocket.ts) -/

/-- The reconnection-relevant fields of `WebSocketService`. -/
structure WSConnState where
  reconnectAttempts : Nat
  reconnectDelay : Nat
  maxReconnectAttempts : Nat
  shouldReconnect : Bool
deriving DecidableEq, Repr

/-- Field initializers of `WebSocketService`: `reconnectAttempts = 0`,
`reconnectDelay = 1000`, `maxReconnectAttempts = 5`, `shouldReconnect = true`. -/
def freshWS : WSConnState :=
  { reconnectAttempts := 0, reconnectDelay := 1000,
    maxReconnectAttempts := 5, shouldReconnect := true }

/-- `scheduleReconnect` (websocket.ts lines 66–75): increments the attempt
counter and computes the timer delay
`min(reconnectDelay * 2^(reconnectAttempts - 1), 30000)` from the
post-increment counter. Returns the new state and the scheduled delay. -/
def scheduleReconnect (s : WSConnState) : WSConnState × Nat :=
  let attempts := s.reconnectAttempts + 1
  let delay := min (s.reconnectDelay * 2 ^ (attempts - 1)) 30000
  ({ s with reconnectAttempts := attempts }, delay)

/-- The `onclose` handler's reconnection decision (websocket.ts lines 50–57):
schedule a reconnect only while `shouldReconnect` holds and the attempt
counter is below the ceiling; otherwise schedule nothing. Returns the new
state and the scheduled delay, if any. -/
def onCloseReconnect (s : WSConnState) : WSConnState × Option Nat :=
  if s.shouldReconnect = true ∧ s.reconnectAttempts < s.maxReconnectAttempts then
    let r := scheduleReconnect s
    (r.1, some r.2)
  else
    (s, none)

/-- The `onopen` handler (websocket.ts lines 29–34): a successful connection
resets the attempt counter and the backoff delay to their initial values. -/
def onOpenReset (s : WSConnState) : WSConnState :=
  { s with reconnectAttempts := 0, reconnectDelay := 1000 }

/-- The channel state after `n` consecutive failed connection attempts (each
failure fires `onclose`, which may schedule the next attempt). -/
def iterClose : Nat → WSConnState → WSConnState
  | 0, s => s
  | n + 1, s => (onCloseReconnect (iterClose n s)).1

/-- Delay scheduled by the `n`-th (1-indexed) consecutive failure starting
from a fresh channel, or `none` when that failure schedules no reconnect. -/
def nthReconnectDelay (n : Nat) : Option Nat :=
  (onCloseReconnect (iterClose (n - 1) freshWS)).2

/-! ## Subscription registry (websocket.ts lines 95–128) -/

/-- Client→server control frames. -/
inductive ControlFrame where
  | subscribeFrame (pipelineId : String)
  | unsubscribeFrame (pipelineId : String)
deriving DecidableEq, Repr

/-- The `subscribers` field, a `Map<string, Set<callback>>`: an association
list in insertion order; callbacks are abstracted by numeric identifiers and
each set is a duplicate-free list in insertion order. -/
abbrev SubRegistry : Type := List (String × List Nat)

/-- `Map.get`: value of the first (only) entry with the given key. -/
def lookupSubs : SubRegistry → String → Option (List Nat)
  | [], _ => none
  | e :: rest, pid => if e.1 = pid then some e.2 else lookupSubs rest pid

/-- `Map.set`: replace the existing entry's value, else append a new entry. -/
def setSubs : SubRegistry → String → List Nat → SubRegistry
  | [], pid, cbs => [(pid, cbs)]
  | e :: rest, pid, cbs =>
    if e.1 = pid then (pid, cbs) :: rest else e :: setSubs rest pid cbs

/-- `Map.delete`: remove the entry with the given key. -/
def deleteSubs : SubRegistry → String → SubRegistry
  | [], _ => []
  | e :: rest, pid =>
    if e.1 = pid then deleteSubs rest pid else e :: deleteSubs rest pid

/-- `Set.add`: append if absent, no-op if present. -/
def setAdd (cbs : List Nat) (cb : Nat) : List Nat :=
  if cb ∈ cbs then cbs else cbs ++ [cb]

/-- `WebSocketService.subscribe(pipelineId, callback)` (websocket.ts lines
95–108): ensure an entry exists, add the callback to its set, and — whenever
the socket is currently OPEN — send a `subscribe` control frame. Returns the
updated registry and the emitted frames. -/
def subscribeOp (r : SubRegistry) (pipelineId : String) (cb : Nat)
    (connected : Bool) : SubRegistry × List ControlFrame :=
  let r1 := match lookupSubs r pipelineId with
    | none => setSubs r pipelineId []
    | some _ => r
  let cbs := (lookupSubs r1 pipelineId).getD []
  let r2 := setSubs r1 pipelineId (setAdd cbs cb)
  (r2, if connected then [ControlFrame.subscribeFrame pipelineId] else [])

/-- The unsubscribe closure returned by `subscribe` (websocket.ts lines
111–127): remove the callback from the pipeline's set; if the set becomes
empty, delete the mapping entry and — when the socket is OPEN — send an
`unsubscribe` control frame. -/
def unsubscribeOp (r : SubRegistry) (pipelineId : String) (cb : Nat)
    (connected : Bool) : SubRegistry × List ControlFrame :=
  match lookupSubs r pipelineId with
  | none => (r, [])
  | some cbs =>
    let cbs2 := cbs.erase cb
    if cbs2 = [] then
      (deleteSubs r pipelineId,
       if connected then [ControlFrame.unsubscribeFrame pipelineId] else [])
    else
      (setSubs r pipelineId cbs2, [])

/-! ## Inbound message handling (websocket.ts lines 36–43 and 77–93) -/

/-- `PipelineMessage` union from types/pipeline.ts. -/
inductive PipelineMessage where
  | update (data : PipelineState)
  | pipelineError (pipelineId : String) (error : String)
deriving DecidableEq, Repr

/-- Observable effects of handling one inbound payload: update-callback
invocations, error-callback invocations, and console diagnostics. -/
inductive WSOutput where
  | invokeUpdate (cb : Nat) (data : PipelineState)
  | invokeError (cb : Nat) (error : String)
  | diagnostic (text : String)
deriving DecidableEq, Repr

/-- `handleMessage` (websocket.ts lines 77–93): a `pipeline_update` is
dispatched to the subscriber set registered under `message.data.id` (dropped
when no set exists); a `pipeline_error` is broadcast to every global error
subscriber. -/
def handleMessage (subs : SubRegistry) (errSubs : List Nat)
    (message : PipelineMessage) : List WSOutput :=
  match message with
  | PipelineMessage.update data =>
    match lookupSubs subs data.id with
    | some callbacks => callbacks.map (fun cb => WSOutput.invokeUpdate cb data)
    | none => []
  | PipelineMessage.pipelineError _ err =>
    errSubs.map (fun cb => WSOutput.invokeError cb err)

/-- The `onmessage` handler (websocket.ts lines 36–43): the raw payload is
structurally parsed (`JSON.parse` plus the message shape), here abstracted as
an `Option PipelineMessage`; a failed parse only logs a diagnostic, a
successful parse is passed to `handleMessage`. -/
def onMessageRaw (subs : SubRegistry) (errSubs : List Nat)
    (parsed : Option PipelineMessage) : List WSOutput :=
  match parsed with
  | none => [WSOutput.diagnostic "Failed to parse message"]
  | some message => handleMessage subs errSubs message

/-! ## Re-entrant dispatch (websocket.ts `callbacks.forEach` semantics)

`handleMessage` iterates a JavaScript `Set` with `forEach`. A callback may
re-entrantly run an unsubscribe closure, which deletes members of the very
set being iterated; `Set.forEach` skips a member that was deleted before
being visited. Callbacks are abstracted by numeric identifiers and the
removals a callback performs by `effect : Nat → List Nat`. -/

/-- One `forEach` pass: walk the snapshot iteration order, invoke a callback
only if it is still present, then apply its removals immediately (the
synchronous unsubscribe). Returns the invocation log and the surviving set. -/
def dispatchAux (effect : Nat → List Nat) :
    List Nat → List Nat → List Nat × List Nat
  | [], present => ([], present)
  | c :: rest, present =>
    if c ∈ present then
      let present2 := present.filter (fun x => decide (x ∉ effect c))
      let res := dispatchAux effect rest present2
      (c :: res.1, res.2)
    else
      dispatchAux effect rest present

/-- Full dispatch of one message to a subscriber set. -/
def dispatchMessage (effect : Nat → List Nat) (subs : List Nat) :
    List Nat × List Nat :=
  dispatchAux effect subs subs

/-! ## Example states used by concrete witnesses -/

/-- A stage record in `error` status with no error text. -/
def errStageNoText : PipelineStageData :=
  { stage := PipelineStage.websiteScraping, status := StageStatus.error,
    progress := 10 }

/-- A stage record in `error` status carrying error text. -/
def errStageWithText : PipelineStageData :=
  { stage := PipelineStage.icpGeneration, status := StageStatus.error,
    progress := 20, error := some "boom" }

/-- A completed stage record. -/
def doneStage : PipelineStageData :=
  { stage := PipelineStage.brandDetection, status := StageStatus.completed,
    progress := 100 }

/-- A pipeline state with one completed and one error stage. -/
def psWithError : PipelineState :=
  { id := "p1", websiteId := "w1", overallProgress := 50,
    stages := [doneStage, errStageNoText], startedAt := "t0" }

/-- A pipeline state whose first error stage has no text while a later error
stage does. -/
def psFirstErrNoText : PipelineState :=
  { id := "p1", websiteId := "w1", overallProgress := 40,
    stages := [doneStage, errStageNoText, errStageWithText], startedAt := "t0" }

/-- A fully completed pipeline state. -/
def psAllDone : PipelineState :=
  { id := "p1", websiteId := "w1", overallProgress := 100,
    stages := [doneStage], startedAt := "t0" }

/-- A pipeline state with an empty stages list. -/
def psNoStages : PipelineState :=
  { id := "p1", websiteId := "w1", overallProgress := 0,
    stages := [], startedAt := "t0" }

/-! ## C1: overall-status precedence chain -/

/-- C1: `getOverallStatus` follows the strict precedence chain: `error` as
soon as any stage is `error` (regardless of the other stages); otherwise
`completed` when every stage is `completed`; otherwise `in-progress` when
any stage is `in-progress`; otherwise `pending`. -/
theorem overallStatus_precedence (ps : PipelineState) :
    ((∃ st ∈ ps.stages, st.status = StageStatus.error) →
      getOverallStatus (some ps) = StageStatus.error) ∧
    ((¬ ∃ st ∈ ps.stages, st.status = StageStatus.error) →
      (∀ st ∈ ps.stages, st.status = StageStatus.completed) →
      getOverallStatus (some ps) = StageStatus.completed) ∧
    ((¬ ∃ st ∈ ps.stages, st.status = StageStatus.error) →
      (¬ ∀ st ∈ ps.stages, st.status = StageStatus.completed) →
      (∃ st ∈ ps.stages, st.status = StageStatus.inProgress) →
      getOverallStatus (some ps) = StageStatus.inProgress) ∧
    ((¬ ∃ st ∈ ps.stages, st.status = StageStatus.error) →
      (¬ ∀ st ∈ ps.stages, st.status = StageStatus.completed) →
      (¬ ∃ st ∈ ps.stages, st.status = StageStatus.inProgress) →
      getOverallStatus (some ps) = StageStatus.pending) := by
  simp only [getOverallStatus]
  split_ifs with h1 h2 h3 <;>
    simp_all [List.any_eq_true, List.all_eq_true, decide_eq_true_eq]

/-- Witness for C1 at a concrete state with one completed and one error
stage. -/
theorem overallStatus_precedence_witness :
    getOverallStatus (some psWithError) = StageStatus.error :=
  (overallStatus_precedence psWithError).1
    ⟨errStageNoText, by decide, by decide⟩

/-! ## C4: level-triggered onComplete -/

/-- C4: the hook fires `onComplete` exactly on the updates whose stages are
all `completed`; in particular two consecutive fully-completed updates fire
it twice (level-triggered, non-idempotent). -/
theorem onComplete_level_triggered :
    (∀ s : PipelineState,
      ((usePipelineOnUpdate s).completeFired = true ↔
        ∀ st ∈ s.stages, st.status = StageStatus.completed)) ∧
    (∀ u1 u2 : PipelineState,
      (∀ st ∈ u1.stages, st.status = StageStatus.completed) →
      (∀ st ∈ u2.stages, st.status = StageStatus.completed) →
      countCompleteFires [u1, u2] = 2) := by
  constructor
  · intro s
    simp [usePipelineOnUpdate, List.all_eq_true]
  · intro u1 u2 h1 h2
    have e1 : (u1.stages.all fun st => decide (st.status = StageStatus.completed)) = true := by
      simp only [List.all_eq_true, decide_eq_true_eq]
      exact h1
    have e2 : (u2.stages.all fun st => decide (st.status = StageStatus.completed)) = true := by
      simp only [List.all_eq_true, decide_eq_true_eq]
      exact h2
    simp [countCompleteFires, usePipelineOnUpdate, e1, e2]

/-- Witness for C4: two consecutive fully-completed updates for the same
pipeline fire `onComplete` twice. -/
theorem onComplete_level_triggered_witness :
    countCompleteFires [psAllDone, psAllDone] = 2 :=
  onComplete_level_triggered.2 psAllDone psAllDone (by decide) (by decide)

/-! ## C9: empty stages list is vacuously complete -/

/-- C9: a received state with zero stage records makes `isComplete` true and
`overallStatus` `completed` vacuously, and the hook fires `onComplete` for
that update. -/
theorem empty_stages_vacuously_complete (ps : PipelineState)
    (h : ps.stages = []) :
    isComplete (some ps) = true ∧
    getOverallStatus (some ps) = StageStatus.completed ∧
    (usePipelineOnUpdate ps).completeFired = true := by
  simp [isComplete, getOverallStatus, usePipelineOnUpdate, h]

/-- Witness for C9 at a concrete state with an empty stages list. -/
theorem empty_stages_vacuously_complete_witness :
    isComplete (some psNoStages) = true ∧
    getOverallStatus (some psNoStages) = StageStatus.completed ∧
    (usePipelineOnUpdate psNoStages).completeFired = true :=
  empty_stages_vacuously_complete psNoStages rfl

/-! ## C10: only the first error stage's text is considered -/

/-- C10: when the first `error`-status stage of an update carries no truthy
error text, `handleError` is not fired and the hook's `error` field stays
unset, although `hasError` reports true for the same update — regardless of
any later error stage's text. -/
theorem first_error_stage_gates_onError (ps : PipelineState)
    (st : PipelineStageData)
    (hfind : ps.stages.find? (fun s => decide (s.status = StageStatus.error)) =
      some st)
    (htext : errTruthy st.error = false) :
    (usePipelineOnUpdate ps).errorFired = none ∧
    hasError (some ps) = true ∧
    hookErrorAfterUpdate none ps = none := by
  have hmem : st ∈ ps.stages := List.mem_of_find?_eq_some hfind
  have hst : st.status = StageStatus.error := by
    have := List.find?_some hfind
    simpa using this
  have hAny :
      ps.stages.any (fun s => decide (s.status = StageStatus.error)) = true := by
    simp only [List.any_eq_true, decide_eq_true_eq]
    exact ⟨st, hmem, hst⟩
  have hFired : (usePipelineOnUpdate ps).errorFired = none := by
    simp [usePipelineOnUpdate, hAny, hfind, htext]
  refine ⟨hFired, ?_, ?_⟩
  · simp [hasError, hAny]
  · simp [hookErrorAfterUpdate, hFired]

/-- Witness for C10 at a concrete state whose first error stage has no text
while a later error stage does. -/
theorem first_error_stage_gates_onError_witness :
    (usePipelineOnUpdate psFirstErrNoText).errorFired = none ∧
    hasError (some psFirstErrNoText) = true ∧
    hookErrorAfterUpdate none psFirstErrNoText = none :=
  first_error_stage_gates_onError psFirstErrNoText errStageNoText
    (by decide) (by decide)

/-! ## C5: estimated-time-remaining formatting -/

/-- C5 counterexample: a strictly positive sub-minute delta (30 s) is
rendered as the singular "1 minute", not as "Less than a minute", because
the code takes the ceiling of the minute quotient before comparing. -/
theorem formatEstimated_subminute_counterexample :
    (0 : Int) < 30000 ∧ (30000 : Int) < 60000 ∧
    formatEstimatedCompletion 30000 = "1 minute" ∧
    formatEstimatedCompletion 30000 ≠ "Less than a minute" := by
  refine ⟨by decide, by decide, by decide, by decide⟩

/-- C5 (amended): the formatter renders "Less than a minute" exactly for
non-positive deltas; every positive delta of at most one minute — the
sub-minute deltas included — rounds up to the distinguished singular
"1 minute"; deltas rounding up to 2–59 minutes use the plural form; larger
deltas use whole-hour/minute buckets. -/
theorem formatEstimated_buckets (diffMs : Int) :
    (diffMs ≤ 0 → formatEstimatedCompletion diffMs = "Less than a minute") ∧
    (0 < diffMs → diffMs ≤ 60000 →
      formatEstimatedCompletion diffMs = "1 minute") ∧
    (60000 < diffMs → diffMs ≤ 59 * 60000 →
      formatEstimatedCompletion diffMs =
        toString (ceilMinutes diffMs) ++ " minutes") ∧
    (59 * 60000 < diffMs →
      formatEstimatedCompletion diffMs =
        toString (ceilMinutes diffMs / 60) ++ "h " ++
          toString (ceilMinutes diffMs % 60) ++ "m") := by
  refine ⟨?_, ?_, ?_, ?_⟩
  · intro h
    have hc : ceilMinutes diffMs < 1 := by
      simp only [ceilMinutes]
      omega
    simp [formatEstimatedCompletion, hc]
  · intro h0 h1
    have hc : ceilMinutes diffMs = 1 := by
      simp only [ceilMinutes]
      omega
    simp [formatEstimatedCompletion, hc]
  · intro h0 h1
    have hc1 : ¬ ceilMinutes diffMs < 1 := by
      simp only [ceilMinutes]
      omega
    have hc2 : ceilMinutes diffMs ≠ 1 := by
      simp only [ceilMinutes]
      omega
    have hc3 : ceilMinutes diffMs < 60 := by
      simp only [ceilMinutes]
      omega
    simp [formatEstimatedCompletion, hc1, hc2, hc3]
  · intro h0
    have hc1 : ¬ ceilMinutes diffMs < 1 := by
      simp only [ceilMinutes]
      omega
    have hc2 : ceilMinutes diffMs ≠ 1 := by
      simp only [ceilMinutes]
      omega
    have hc3 : ¬ ceilMinutes diffMs < 60 := by
      simp only [ceilMinutes]
      omega
    simp [formatEstimatedCompletion, hc1, hc2, hc3]

/-- Witness for C5's amended theorem at concrete deltas from each bucket. -/
theorem formatEstimated_buckets_witness :
    formatEstimatedCompletion (-5000) = "Less than a minute" ∧
    formatEstimatedCompletion 30000 = "1 minute" ∧
    formatEstimatedCompletion 150000 = toString (ceilMinutes 150000) ++ " minutes" ∧
    formatEstimatedCompletion 3600000 =
      toString (ceilMinutes 3600000 / 60) ++ "h " ++
        toString (ceilMinutes 3600000 % 60) ++ "m" :=
  ⟨(formatEstimated_buckets (-5000)).1 (by decide),
   (formatEstimated_buckets 30000).2.1 (by decide) (by decide),
   (formatEstimated_buckets 150000).2.2.1 (by decide) (by decide),
   (formatEstimated_buckets 3600000).2.2.2 (by decide)⟩

/-! ## C2: reconnect backoff policy -/

/-- C2: starting from a fresh channel, the `n`-th consecutive failure
(1-indexed, `n ≤ 5`) schedules a reconnect after
`min(1000 ms * 2^(n-1), 30000 ms)` — concretely 1000, 2000, 4000, 8000,
16000 ms; from the 6th failure on no reconnect is ever scheduled; and a
successful connection resets the attempt counter and backoff delay to their
initial values. -/
theorem backoff_policy :
    (∀ n : Nat, 1 ≤ n → n ≤ 5 →
      nthReconnectDelay n = some (min (1000 * 2 ^ (n - 1)) 30000)) ∧
    ([nthReconnectDelay 1, nthReconnectDelay 2, nthReconnectDelay 3,
      nthReconnectDelay 4, nthReconnectDelay 5] =
      [some 1000, some 2000, some 4000, some 8000, some 16000]) ∧
    (∀ n : Nat, 6 ≤ n → nthReconnectDelay n = none) ∧
    (∀ s : WSConnState, (onOpenReset s).reconnectAttempts = 0 ∧
      (onOpenReset s).reconnectDelay = 1000) := by
  have hfix : ∀ m : Nat, iterClose (5 + m) freshWS = iterClose 5 freshWS := by
    intro m
    induction m with
    | zero => rfl
    | succ k ih =>
      have h5 : 5 + (k + 1) = (5 + k) + 1 := by omega
      rw [h5]
      show (onCloseReconnect (iterClose (5 + k) freshWS)).1 = _
      rw [ih]
      decide
  refine ⟨?_, by decide, ?_, ?_⟩
  · intro n h1 h5
    interval_cases n <;> decide
  · intro n h6
    have hn : n - 1 = 5 + (n - 6) := by omega
    unfold nthReconnectDelay
    rw [hn, hfix]
    decide
  · intro s
    exact ⟨rfl, rfl⟩

/-- Witness for C2 at the 5th failure (last scheduled reconnect) and the
6th (no reconnect scheduled). -/
theorem backoff_policy_witness :
    nthReconnectDelay 5 = some (min (1000 * 2 ^ (5 - 1)) 30000) ∧
    nthReconnectDelay 6 = none :=
  ⟨backoff_policy.1 5 (by decide) (by decide),
   backoff_policy.2.2.1 6 (by decide)⟩

/-! ## C6: malformed payloads are dropped locally -/

/-- C6: a payload that fails structural parsing produces only a console
diagnostic — no update subscriber and no error subscriber is invoked,
whatever the registry and error-subscriber set contain. -/
theorem malformed_payload_dropped (subs : SubRegistry) (errSubs : List Nat) :
    onMessageRaw subs errSubs none =
      [WSOutput.diagnostic "Failed to parse message"] ∧
    (∀ cb data, WSOutput.invokeUpdate cb data ∉ onMessageRaw subs errSubs none) ∧
    (∀ cb err, WSOutput.invokeError cb err ∉ onMessageRaw subs errSubs none) := by
  refine ⟨rfl, ?_, ?_⟩ <;> intro cb x <;> simp [onMessageRaw]

/-! ## C7: at-most-once dispatch and synchronous unsubscribe -/

/-- The invocation log of a dispatch pass is a sublist of the snapshot
iteration order. -/
theorem dispatchAux_fst_sublist (effect : Nat → List Nat) (order : List Nat) :
    ∀ present : List Nat, (dispatchAux effect order present).1.Sublist order := by
  induction order with
  | nil =>
    intro present
    exact List.Sublist.refl []
  | cons c rest ih =>
    intro present
    by_cases h : c ∈ present
    · simp only [dispatchAux, if_pos h]
      exact List.Sublist.cons₂ c (ih _)
    · simp only [dispatchAux, if_neg h]
      exact List.Sublist.cons c (ih _)

/-- Every invoked callback was present when the dispatch pass started. -/
theorem dispatchAux_fst_mem (effect : Nat → List Nat) (order : List Nat) :
    ∀ (present : List Nat) (x : Nat),
      x ∈ (dispatchAux effect order present).1 → x ∈ present := by
  induction order with
  | nil =>
    intro present x hx
    simp [dispatchAux] at hx
  | cons c rest ih =>
    intro present x hx
    by_cases h : c ∈ present
    · simp only [dispatchAux, if_pos h] at hx
      rcases List.mem_cons.mp hx with rfl | hx2
      · exact h
      · exact List.mem_of_mem_filter (ih _ x hx2)
    · simp only [dispatchAux, if_neg h] at hx
      exact ih _ x hx

/-- C7: during dispatch of one message to a duplicate-free subscriber set,
each callback is invoked at most once; and a callback no longer present
after a dispatch (e.g. removed re-entrantly by an unsubscribe run from
within a callback) is not invoked by any message dispatched afterwards. -/
theorem dispatch_at_most_once_and_unsubscribed_silent
    (effect1 effect2 : Nat → List Nat) (subs : List Nat) (c : Nat)
    (hnd : subs.Nodup) :
    ((dispatchMessage effect1 subs).1.count c ≤ 1) ∧
    (c ∉ (dispatchMessage effect1 subs).2 →
      c ∉ (dispatchMessage effect2 (dispatchMessage effect1 subs).2).1) := by
  constructor
  · have hsub := dispatchAux_fst_sublist effect1 subs subs
    exact List.nodup_iff_count_le_one.mp (hsub.nodup hnd) c
  · intro hc hmem
    exact hc (dispatchAux_fst_mem effect2 _ _ c hmem)

/-- The removal behaviour of a concrete callback: callback 1 re-entrantly
unsubscribes callback 2. -/
def unsubEffect : Nat → List Nat := fun n => if n = 1 then [2] else []

/-- Witness for C7: with subscribers `[1, 2]` where callback 1 removes
callback 2 during dispatch, callback 2 is counted at most once and receives
nothing from the next dispatched message. -/
theorem dispatch_at_most_once_witness :
    ((dispatchMessage unsubEffect [1, 2]).1.count 2 ≤ 1) ∧
    (2 ∉ (dispatchMessage (fun _ => []) (dispatchMessage unsubEffect [1, 2]).2).1) :=
  ⟨(dispatch_at_most_once_and_unsubscribed_silent unsubEffect (fun _ => [])
      [1, 2] 2 (by decide)).1,
   (dispatch_at_most_once_and_unsubscribed_silent unsubEffect (fun _ => [])
      [1, 2] 2 (by decide)).2 (by decide)⟩

/-! ## C3: subscribe control frame emission -/

/-- C3 counterexample: with callback 1 already registered for "p1" (the
subscriber set for "p1" is non-empty) and the channel connected, a second
`subscribe` call for "p1" still emits a `subscribe` control frame, refuting
"a control frame is emitted only on the first registration". -/
theorem subscribe_frame_counterexample :
    lookupSubs ((subscribeOp [] "p1" 1 true).1) "p1" = some [1] ∧
    (subscribeOp ((subscribeOp [] "p1" 1 true).1) "p1" 2 true).2 =
      [ControlFrame.subscribeFrame "p1"] := by
  refine ⟨by decide, by decide⟩

/-- C3 (amended): while the channel is connected, every `subscribe` call
emits a `subscribe` control frame — also when the pipeline identifier
already has registered callbacks; while disconnected no frame is emitted. -/
theorem subscribe_frame_every_call (r : SubRegistry) (pid : String)
    (cb : Nat) (connected : Bool) :
    (subscribeOp r pid cb connected).2 =
      if connected then [ControlFrame.subscribeFrame pid] else [] := rfl

/-! ## C8: subscribe/unsubscribe round trip -/

/-- With no entry for the key, `Map.set` appends a new entry. -/
theorem setSubs_of_lookup_none (pid : String) (cbs : List Nat) :
    ∀ r : SubRegistry, lookupSubs r pid = none →
      setSubs r pid cbs = r ++ [(pid, cbs)] := by
  intro r
  induction r with
  | nil => intro _; rfl
  | cons e rest ih =>
    intro h
    simp only [lookupSubs] at h
    by_cases he : e.1 = pid
    · rw [if_pos he] at h
      exact absurd h (by simp)
    · rw [if_neg he] at h
      simp only [setSubs, if_neg he, List.cons_append]
      rw [ih h]

/-- Looking up the key of the appended entry finds it when no earlier entry
has that key. -/
theorem lookupSubs_append_of_none (pid : String) (cbs : List Nat) :
    ∀ r : SubRegistry, lookupSubs r pid = none →
      lookupSubs (r ++ [(pid, cbs)]) pid = some cbs := by
  intro r
  induction r with
  | nil => intro _; simp [lookupSubs]
  | cons e rest ih =>
    intro h
    simp only [lookupSubs] at h
    by_cases he : e.1 = pid
    · rw [if_pos he] at h
      exact absurd h (by simp)
    · rw [if_neg he] at h
      simp only [List.cons_append, lookupSubs, if_neg he]
      exact ih h

/-- `Map.set` on the appended entry's key rewrites that entry when no
earlier entry has the key. -/
theorem setSubs_append_of_none (pid : String) (a b : List Nat) :
    ∀ r : SubRegistry, lookupSubs r pid = none →
      setSubs (r ++ [(pid, a)]) pid b = r ++ [(pid, b)] := by
  intro r
  induction r with
  | nil => intro _; simp [setSubs]
  | cons e rest ih =>
    intro h
    simp only [lookupSubs] at h
    by_cases he : e.1 = pid
    · rw [if_pos he] at h
      exact absurd h (by simp)
    · rw [if_neg he] at h
      simp only [List.cons_append, setSubs, if_neg he, List.append_eq]
      rw [ih h]

/-- `Map.delete` of the appended entry's key restores the original registry
when no earlier entry has the key. -/
theorem deleteSubs_append_of_none (pid : String) (a : List Nat) :
    ∀ r : SubRegistry, lookupSubs r pid = none →
      deleteSubs (r ++ [(pid, a)]) pid = r := by
  intro r
  induction r with
  | nil => intro _; simp [deleteSubs]
  | cons e rest ih =>
    intro h
    simp only [lookupSubs] at h
    by_cases he : e.1 = pid
    · rw [if_pos he] at h
      exact absurd h (by simp)
    · rw [if_neg he] at h
      simp only [List.cons_append, deleteSubs, if_neg he, List.append_eq]
      rw [ih h]

/-- C8: subscribing a callback for a pipeline identifier the registry does
not yet know and immediately running the returned unsubscribe (no messages
in between) leaves no entry for that identifier — the registry round-trips
to its initial state — and each control frame is emitted exactly when the
channel was connected at the respective call. -/
theorem subscribe_unsubscribe_roundtrip (r0 : SubRegistry) (pid : String)
    (cb : Nat) (c1 c2 : Bool) (h : lookupSubs r0 pid = none) :
    lookupSubs (unsubscribeOp (subscribeOp r0 pid cb c1).1 pid cb c2).1 pid
      = none ∧
    (unsubscribeOp (subscribeOp r0 pid cb c1).1 pid cb c2).1 = r0 ∧
    (subscribeOp r0 pid cb c1).2 =
      (if c1 then [ControlFrame.subscribeFrame pid] else []) ∧
    (unsubscribeOp (subscribeOp r0 pid cb c1).1 pid cb c2).2 =
      (if c2 then [ControlFrame.unsubscribeFrame pid] else []) := by
  have hsub1 : (subscribeOp r0 pid cb c1).1 = r0 ++ [(pid, [cb])] := by
    simp only [subscribeOp, h]
    rw [setSubs_of_lookup_none pid [] r0 h,
      lookupSubs_append_of_none pid [] r0 h]
    simp only [Option.getD_some, setAdd, List.not_mem_nil, if_false,
      ite_false, List.nil_append]
    rw [setSubs_append_of_none pid [] [cb] r0 h]
  have hlook : lookupSubs ((subscribeOp r0 pid cb c1).1) pid = some [cb] := by
    rw [hsub1]
    exact lookupSubs_append_of_none pid [cb] r0 h
  have hunsub : (unsubscribeOp (subscribeOp r0 pid cb c1).1 pid cb c2) =
      (r0, if c2 then [ControlFrame.unsubscribeFrame pid] else []) := by
    simp only [unsubscribeOp, hlook, List.erase_cons_head, if_pos]
    rw [hsub1, deleteSubs_append_of_none pid [cb] r0 h]
  refine ⟨?_, ?_, ?_, ?_⟩
  · rw [hunsub]
    exact h
  · rw [hunsub]
  · rfl
  · rw [hunsub]

/-- Witness for C8 at a concrete fresh registry with the channel connected
at both calls. -/
theorem subscribe_unsubscribe_roundtrip_witness :
    lookupSubs (unsubscribeOp (subscribeOp [] "p1" 7 true).1 "p1" 7 true).1 "p1"
      = none ∧
    (unsubscribeOp (subscribeOp [] "p1" 7 true).1 "p1" 7 true).1 =
      ([] : SubRegistry) ∧
    (subscribeOp [] "p1" 7 true).2 =
      (if true then [ControlFrame.subscribeFrame "p1"] else []) ∧
    (unsubscribeOp (subscribeOp [] "p1" 7 true).1 "p1" 7 true).2 =
      (if true then [ControlFrame.unsubscribeFrame "p1"] else []) :=
  subscribe_unsubscribe_roundtrip [] "p1" 7 true true rfl
